import Mathlib

/-!
Shallow embedding of the `checkfr24` repository (FastAPI flight-search app):
`app/schemas.py`, `app/services/fr24_service.py`, `app/services/cache.py`,
and the request model of `app/main.py`.  Python optional strings are
`Option String`; Python numbers are modelled exactly: integers as `Int`,
floats as exact rationals (`ℚ`, without IEEE rounding), and booleans count
as numbers where the code checks `isinstance(value, (int, float))`, since
`bool` is a subclass of `int` in Python.  Python `dict` values are
association lists inside an inductive `PyVal` type.
-/

/-- Lowercasing as Python `str.lower()` on the character ranges this code
base uses: ASCII letters and the Cyrillic letters appearing in the
country-alias table. -/
def pyLowerChar (c : Char) : Char :=
  if 'A' ≤ c ∧ c ≤ 'Z' then Char.ofNat (c.toNat + 32)
  else if 'А' ≤ c ∧ c ≤ 'Я' then Char.ofNat (c.toNat + 32)
  else if c = 'Ё' then 'ё'
  else c

/-- Python `s.lower()`. -/
def pyStrLower (s : String) : String :=
  String.mk (s.data.map pyLowerChar)

/-- Python `s.strip()`: drop leading and trailing whitespace. -/
def pyStrip (s : String) : String :=
  String.mk (((s.data.dropWhile Char.isWhitespace).reverse.dropWhile
    Char.isWhitespace).reverse)

/-- Python substring test `needle in hay` on lists of characters. -/
def listInfixOf (needle hay : List Char) : Bool :=
  hay.tails.any (fun t => needle.isPrefixOf t)

/-- Python truthiness `bool(x)` for an `Optional[str]`. -/
def optStrTruthy (o : Option String) : Bool :=
  match o with
  | none => false
  | some s => !(s == "")

/-- Dataclass `FlightFilter` of `app/schemas.py` (all fields optional with the
source defaults). -/
structure FlightFilter where
  min_duration_h : Option ℚ := none
  max_duration_h : Option ℚ := none
  departure_country : Option String := none
  departure_city_or_airport : Option String := none
  arrival_country : Option String := none
  arrival_airport : Option String := none
  aircraft_icao : Option String := none
  airline : Option String := none
  include_past : Bool := false
deriving DecidableEq, Repr

/-- Method `FlightFilter.has_any_filter` — `any` over the eight listed membership
tests (the source list does not mention `include_past`). -/
def FlightFilter.has_any_filter (f : FlightFilter) : Bool :=
  f.min_duration_h.isSome
  || f.max_duration_h.isSome
  || optStrTruthy f.departure_country
  || optStrTruthy f.departure_city_or_airport
  || optStrTruthy f.arrival_country
  || optStrTruthy f.arrival_airport
  || optStrTruthy f.aircraft_icao
  || optStrTruthy f.airline

/-- Dataclass `FlightView` of `app/schemas.py` (the canonical record). -/
structure FlightView where
  fr24_id : String
  flight_number : Option String := none
  callsign : Option String := none
  airline : Option String := none
  aircraft_icao : Option String := none
  departure_airport : Option String := none
  departure_airport_icao : Option String := none
  departure_city : Option String := none
  departure_country : Option String := none
  arrival_airport : Option String := none
  arrival_airport_icao : Option String := none
  arrival_city : Option String := none
  arrival_country : Option String := none
  scheduled_duration_min : Option Int := none
  is_past : Bool := false
deriving DecidableEq, Repr

/-- Alias table `FR24Service.COUNTRY_ALIASES`. -/
def COUNTRY_ALIASES : List (String × String) :=
  [("россия", "russia"),
   ("рф", "russia"),
   ("турция", "turkey"),
   ("германия", "germany"),
   ("франция", "france"),
   ("италия", "italy"),
   ("испания", "spain"),
   ("китай", "china"),
   ("япония", "japan"),
   ("оаэ", "united arab emirates"),
   ("сша", "united states"),
   ("великобритания", "united kingdom")]

/-- Python `COUNTRY_ALIASES.get(lower, lower)`. -/
def aliasGet (k : String) : String :=
  match COUNTRY_ALIASES.find? (fun p => p.1 == k) with
  | some p => p.2
  | none => k

/-- Method `FR24Service._norm_country`: `None` for falsy input, else lowercase,
strip, and look the result up in the alias table (identity default). -/
def _norm_country (value : Option String) : Option String :=
  match value with
  | none => none
  | some v =>
    if v == "" then none
    else some (aliasGet (pyStrip (pyStrLower v)))

/-- Method `FR24Service._contains`: an unset/empty filter always matches, an unset
record field never does, otherwise case-insensitive substring test. -/
def _contains (source expected : Option String) : Bool :=
  match expected with
  | none => true
  | some e =>
    if e == "" then true
    else
      match source with
      | none => false
      | some s =>
        if s == "" then false
        else listInfixOf (pyStrLower e).data (pyStrLower s).data

/-- The first early return of `_match_filters`: a set minimum bound fails on
an absent duration or one below `min_duration_h * 60`. -/
def minDurationFails (flight : FlightView) (filters : FlightFilter) : Bool :=
  match filters.min_duration_h with
  | none => false
  | some m =>
    match flight.scheduled_duration_min with
    | none => true
    | some d => decide ((d : ℚ) < m * 60)

/-- The second early return of `_match_filters`: a set maximum bound fails on
an absent duration or one above `max_duration_h * 60`. -/
def maxDurationFails (flight : FlightView) (filters : FlightFilter) : Bool :=
  match filters.max_duration_h with
  | none => false
  | some m =>
    match flight.scheduled_duration_min with
    | none => true
    | some d => decide ((d : ℚ) > m * 60)

/-- Method `FR24Service._match_filters` — the conjunction of all early-return
checks, in source order: duration bounds (unless `skip_duration`),
normalized departure country, departure city-or-airport against city, IATA
and ICAO, normalized arrival country, arrival airport against IATA and ICAO
only, aircraft code, and the airline/callsign/flight-number disjunction. -/
def _match_filters (flight : FlightView) (filters : FlightFilter)
    (skip_duration : Bool) : Bool :=
  !(!skip_duration && minDurationFails flight filters)
  && !(!skip_duration && maxDurationFails flight filters)
  && !(optStrTruthy (_norm_country filters.departure_country)
       && !(_contains (_norm_country flight.departure_country)
              (_norm_country filters.departure_country)))
  && (_contains flight.departure_city filters.departure_city_or_airport
      || _contains flight.departure_airport filters.departure_city_or_airport
      || _contains flight.departure_airport_icao filters.departure_city_or_airport)
  && !(optStrTruthy (_norm_country filters.arrival_country)
       && !(_contains (_norm_country flight.arrival_country)
              (_norm_country filters.arrival_country)))
  && (_contains flight.arrival_airport filters.arrival_airport
      || _contains flight.arrival_airport_icao filters.arrival_airport)
  && _contains flight.aircraft_icao filters.aircraft_icao
  && !(optStrTruthy filters.airline
       && !(_contains flight.airline filters.airline
            || _contains flight.callsign filters.airline
            || _contains flight.flight_number filters.airline))

/-- Method `FR24Service._match_prefilter` — only the aircraft-code and airline
checks. -/
def _match_prefilter (flight : FlightView) (filters : FlightFilter) : Bool :=
  !(optStrTruthy filters.aircraft_icao
    && !(_contains flight.aircraft_icao filters.aircraft_icao))
  && !(optStrTruthy filters.airline
       && !(_contains flight.airline filters.airline
            || _contains flight.callsign filters.airline
            || _contains flight.flight_number filters.airline))

/-- Python values as they appear in the JSON payloads handled by
`fr24_service.py`: `None`, booleans, integers, floats (modelled as exact
rationals, without IEEE rounding), strings, dicts and lists. -/
inductive PyVal where
  | none
  | bool (b : Bool)
  | int (n : Int)
  | float (q : ℚ)
  | str (s : String)
  | dict (entries : List (String × PyVal))
  | list (items : List PyVal)

/-- Python truthiness `bool(x)`. -/
def PyVal.truthy : PyVal → Bool
  | .none => false
  | .bool b => b
  | .int n => n != 0
  | .float q => decide (q ≠ 0)
  | .str s => s != ""
  | .dict d => !d.isEmpty
  | .list l => !l.isEmpty

/-- Python `isinstance(value, (int, float))` together with the numeric
value it denotes: ints, floats, and bools (`bool` is a subclass of `int`
in Python, with `True = 1` and `False = 0`). -/
def pyNumVal : PyVal → Option ℚ
  | .int n => some (n : ℚ)
  | .float q => some q
  | .bool b => some (if b then 1 else 0)
  | _ => Option.none

/-- Executable floor of a rational (`Int.fdiv` of numerator by
denominator). -/
def ratFloor (q : ℚ) : Int :=
  Int.fdiv q.num q.den

/-- Executable ceiling of a rational. -/
def ratCeil (q : ℚ) : Int :=
  -(ratFloor (-q))

/-- Python `int(x)` on a number: truncation toward zero. -/
def pyTrunc (q : ℚ) : Int :=
  if 0 ≤ q then ratFloor q else ratCeil q

/-- Executable exact division of a rational by a positive natural number
(written via `mkRat` so that it kernel-reduces; equal to `q / n`). -/
def ratDivNat (q : ℚ) (n : Nat) : ℚ :=
  mkRat q.num (q.den * n)

/-- Python `a or b` (value-returning disjunction). -/
def pyOr (a b : PyVal) : PyVal :=
  if a.truthy then a else b

/-- Python `d.get(k)` with its `None` default. -/
def dictGet (d : List (String × PyVal)) (k : String) : PyVal :=
  match d.find? (fun p => p.1 == k) with
  | some p => p.2
  | Option.none => PyVal.none

/-- Helper `FR24Service._as_dict`: the value if it is a dict, else an empty dict. -/
def _as_dict (v : PyVal) : List (String × PyVal) :=
  match v with
  | .dict d => d
  | _ => []

/-- Whether a `PyVal` is a dict (`isinstance(value, dict)`). -/
def PyVal.isDictVal : PyVal → Bool
  | .dict _ => true
  | _ => false

/-- Python `repr(x)` for the modelled values (used by `str` on containers). -/
def pyRepr : PyVal → String
  | .none => "None"
  | .bool b => if b then "True" else "False"
  | .int n => toString n
  | .float q => toString q
  | .str s => "\x27" ++ s ++ "\x27"
  | .list items => "[" ++ ", ".intercalate (items.attach.map fun x => pyRepr x.1) ++ "]"
  | .dict entries =>
      "\x7b" ++ ", ".intercalate (entries.attach.map fun kv =>
        "\x27" ++ kv.1.1 ++ "\x27: " ++ pyRepr kv.1.2) ++ "\x7d"
decreasing_by
  · have := List.sizeOf_lt_of_mem x.2
    simp_wf
    omega
  · rcases kv with ⟨⟨f, s⟩, hmem⟩
    have h := List.sizeOf_lt_of_mem hmem
    simp_wf
    simp only [Prod.mk.sizeOf_spec] at h
    omega

/-- Python `str(x)`. -/
def pyStr : PyVal → String
  | .str s => s
  | v => pyRepr v

/-- Helper `FR24Service._safe_str`: `None` stays `None`; other values are
stringified and stripped, with the empty string collapsing to `None`. -/
def _safe_str (v : PyVal) : Option String :=
  match v with
  | .none => Option.none
  | v =>
    let text := pyStrip (pyStr v)
    if text == "" then Option.none else some text

/-- The local `normalize_ts` helper of `_extract_duration_min`: unwrap a
dict via its `timestamp`/`time` entries, accept only numbers, and divide
millisecond-resolution values (beyond 10^10) by 1000. -/
def normalize_ts (value : PyVal) : Option Int :=
  let value := match value with
    | .dict d => pyOr (dictGet d "timestamp") (dictGet d "time")
    | v => v
  match pyNumVal value with
  | some q =>
    some (if 10000000000 < q then pyTrunc (ratDivNat q 1000) else pyTrunc q)
  | Option.none => Option.none

/-- The `for key in ("eta", "duration", "delay")` loop at the end of
`_extract_duration_min`: first strictly positive numeric value wins, with
the same seconds/minutes heuristic. -/
def scanOtherKeys : List String → List (String × PyVal) → Option Int
  | [], _ => Option.none
  | k :: ks, other =>
    match pyNumVal (dictGet other k) with
    | some q =>
      if 0 < q then
        some (if 1000 < q then ratFloor (ratDivNat q 60) else pyTrunc q)
      else scanOtherKeys ks other
    | Option.none => scanOtherKeys ks other

/-- Method `FR24Service._extract_duration_min`: scheduled timestamps, then real
timestamps (both with the positivity guard), then the raw `"duration"`
field under the seconds/minutes heuristic (no positivity guard there), then
the `time.other` scan. -/
def _extract_duration_min (data : List (String × PyVal)) (details : PyVal) :
    Option Int :=
  let det := _as_dict details
  let time_obj := _as_dict (dictGet det "time")
  let scheduled := _as_dict (dictGet time_obj "scheduled")
  let departure_ts := pyOr (dictGet scheduled "departure")
    (pyOr (dictGet data "time_scheduled") (dictGet data "scheduled_departure"))
  let arrival_ts := pyOr (dictGet scheduled "arrival")
    (pyOr (dictGet data "time_estimated") (dictGet data "scheduled_arrival"))
  match normalize_ts departure_ts, normalize_ts arrival_ts with
  | some dep, some arr =>
    let delta := Int.fdiv (arr - dep) 60
    if 0 < delta then some delta else Option.none
  | _, _ =>
    let real := _as_dict (dictGet time_obj "real")
    match normalize_ts (dictGet real "departure"),
        normalize_ts (dictGet real "arrival") with
    | some dep, some arr =>
      let delta := Int.fdiv (arr - dep) 60
      if 0 < delta then some delta else Option.none
    | _, _ =>
      match pyNumVal (dictGet data "duration") with
      | some q =>
        some (if 1000 < q then ratFloor (ratDivNat q 60) else pyTrunc q)
      | Option.none => scanOtherKeys ["eta", "duration", "delay"]
          (_as_dict (dictGet time_obj "other"))

/-- Method `FR24Service._to_view`: normalize one raw record (plus optional detail
record) into a canonical `FlightView`, with every field an ordered fallback
chain over the alternative raw keys. -/
def _to_view (raw : PyVal) (details : PyVal) : FlightView :=
  let data := match raw with
    | .dict d => d
    | _ => ([] : List (String × PyVal))
  let det := _as_dict details
  let airport := _as_dict (dictGet det "airport")
  let dep_detail := _as_dict (dictGet airport "origin")
  let arr_detail := _as_dict (dictGet airport "destination")
  let dep_pos := _as_dict (dictGet dep_detail "position")
  let arr_pos := _as_dict (dictGet arr_detail "position")
  let dep_region := _as_dict (dictGet dep_pos "region")
  let arr_region := _as_dict (dictGet arr_pos "region")
  let dep_country_obj := _as_dict (dictGet dep_pos "country")
  let arr_country_obj := _as_dict (dictGet arr_pos "country")
  let dep_code := _as_dict (dictGet dep_detail "code")
  let arr_code := _as_dict (dictGet arr_detail "code")
  let dep_iata := pyOr (dictGet data "origin_airport_iata")
    (pyOr (dictGet data "airport_origin_code_iata") (dictGet dep_code "iata"))
  let arr_iata := pyOr (dictGet data "destination_airport_iata")
    (pyOr (dictGet data "airport_destination_code_iata") (dictGet arr_code "iata"))
  let dep_icao := pyOr (dictGet data "origin_airport_icao")
    (pyOr (dictGet data "airport_origin_code_icao") (dictGet dep_code "icao"))
  let arr_icao := pyOr (dictGet data "destination_airport_icao")
    (pyOr (dictGet data "airport_destination_code_icao") (dictGet arr_code "icao"))
  let departure_city := pyOr (dictGet data "origin_city")
    (pyOr (dictGet data "airport_origin_city") (dictGet dep_region "city"))
  let arrival_city := pyOr (dictGet data "destination_city")
    (pyOr (dictGet data "airport_destination_city") (dictGet arr_region "city"))
  let airline := _as_dict (dictGet det "airline")
  let airline_code := _as_dict (dictGet airline "code")
  let airline_name := pyOr (dictGet data "airline_name") (dictGet airline "name")
  let airline_icao := pyOr (dictGet data "airline_icao") (dictGet airline_code "icao")
  let airline_iata := pyOr (dictGet data "airline_iata") (dictGet airline_code "iata")
  let airline_field_s := " ".intercalate
    (([airline_name, airline_icao, airline_iata].filter PyVal.truthy).map pyStr)
  let airline_field := if airline_field_s == "" then PyVal.none
    else PyVal.str airline_field_s
  let dep_country := pyOr (dictGet data "origin_country")
    (pyOr (dictGet data "airport_origin_country_name") (dictGet dep_country_obj "name"))
  let arr_country := pyOr (dictGet data "destination_country")
    (pyOr (dictGet data "airport_destination_country_name") (dictGet arr_country_obj "name"))
  let identification := _as_dict (dictGet det "identification")
  let identification_number := _as_dict (dictGet identification "number")
  let aircraft := _as_dict (dictGet det "aircraft")
  let aircraft_model := _as_dict (dictGet aircraft "model")
  let status := _as_dict (dictGet det "status")
  let duration_min := _extract_duration_min data details
  let status_text := pyStrLower (pyStr
    (pyOr (pyOr (dictGet data "status") (dictGet status "text")) (.str "")))
  let is_past := listInfixOf "landed".data status_text.data
    || listInfixOf "arrived".data status_text.data
  { fr24_id := match _safe_str
        (pyOr (pyOr (dictGet data "id") (dictGet data "flight_id")) (.str "")) with
      | some s => s
      | Option.none => "unknown"
    flight_number := _safe_str (pyOr (dictGet data "number")
      (pyOr (dictGet data "flight")
        (pyOr (dictGet data "flight_number") (dictGet identification_number "default"))))
    callsign := _safe_str (pyOr (dictGet data "callsign") (dictGet identification "callsign"))
    airline := _safe_str airline_field
    aircraft_icao := _safe_str (pyOr (dictGet data "aircraft_code")
      (pyOr (dictGet data "aircraft_icao") (dictGet aircraft_model "code")))
    departure_airport := _safe_str dep_iata
    departure_airport_icao := _safe_str dep_icao
    departure_city := _safe_str departure_city
    departure_country := _safe_str dep_country
    arrival_airport := _safe_str arr_iata
    arrival_airport_icao := _safe_str arr_icao
    arrival_city := _safe_str arrival_city
    arrival_country := _safe_str arr_country
    scheduled_duration_min := duration_min
    is_past := is_past }

/-- One row of the sqlite table `flights_cache` of `app/services/cache.py`:
primary key `fr24_id`, serialized payload, ISO timestamp. -/
structure CacheRow where
  fr24_id : String
  payload : String
  cached_at : String
deriving DecidableEq, Repr

/-- Hex digit for the low control-character escapes of `json.dumps`. -/
def hexDigit (n : Nat) : Char :=
  if n < 10 then Char.ofNat (48 + n) else Char.ofNat (87 + n)

/-- Character escaping of `json.dumps` (with `ensure_ascii=False`). -/
def jsonEscapeChar (c : Char) : String :=
  if c = '"' then "\\\""
  else if c = '\\' then "\\\\"
  else if c = '\n' then "\\n"
  else if c = '\t' then "\\t"
  else if c = '\r' then "\\r"
  else if c = Char.ofNat 8 then "\\b"
  else if c = Char.ofNat 12 then "\\f"
  else if c.toNat < 32 then
    "\\u00" ++ String.mk [hexDigit (c.toNat / 16), hexDigit (c.toNat % 16)]
  else String.mk [c]

/-- A JSON string literal. -/
def jsonStr (s : String) : String :=
  "\"" ++ String.join (s.data.map jsonEscapeChar) ++ "\""

/-- JSON rendering of an optional string (`null` when absent). -/
def jsonOptStr : Option String → String
  | Option.none => "null"
  | some s => jsonStr s

/-- JSON rendering of an optional integer (`null` when absent). -/
def jsonOptInt : Option Int → String
  | Option.none => "null"
  | some n => toString n

/-- JSON rendering of a boolean. -/
def jsonBool (b : Bool) : String :=
  if b then "true" else "false"

/-- Serialization `json.dumps` of the slots dict of a flight, as in `FlightCache.save`:
over the slots of `FlightView`, in declaration order, with the default
`", "`/`": "` separators. -/
def serializeFlight (f : FlightView) : String :=
  "\x7b" ++ ", ".intercalate
    [jsonStr "fr24_id" ++ ": " ++ jsonStr f.fr24_id,
     jsonStr "flight_number" ++ ": " ++ jsonOptStr f.flight_number,
     jsonStr "callsign" ++ ": " ++ jsonOptStr f.callsign,
     jsonStr "airline" ++ ": " ++ jsonOptStr f.airline,
     jsonStr "aircraft_icao" ++ ": " ++ jsonOptStr f.aircraft_icao,
     jsonStr "departure_airport" ++ ": " ++ jsonOptStr f.departure_airport,
     jsonStr "departure_airport_icao" ++ ": " ++ jsonOptStr f.departure_airport_icao,
     jsonStr "departure_city" ++ ": " ++ jsonOptStr f.departure_city,
     jsonStr "departure_country" ++ ": " ++ jsonOptStr f.departure_country,
     jsonStr "arrival_airport" ++ ": " ++ jsonOptStr f.arrival_airport,
     jsonStr "arrival_airport_icao" ++ ": " ++ jsonOptStr f.arrival_airport_icao,
     jsonStr "arrival_city" ++ ": " ++ jsonOptStr f.arrival_city,
     jsonStr "arrival_country" ++ ": " ++ jsonOptStr f.arrival_country,
     jsonStr "scheduled_duration_min" ++ ": " ++ jsonOptInt f.scheduled_duration_min,
     jsonStr "is_past" ++ ": " ++ jsonBool f.is_past] ++ "\x7d"

/-- The sqlite statement `INSERT INTO flights_cache ... ON CONFLICT(fr24_id)
DO UPDATE SET payload=excluded.payload, cached_at=excluded.cached_at` on a
table with `fr24_id` as primary key: replace the payload and timestamp of
the existing row, else append a new row. -/
def upsertRow (rows : List CacheRow) (r : CacheRow) : List CacheRow :=
  if rows.any (fun x => x.fr24_id == r.fr24_id) then
    rows.map (fun x =>
      if x.fr24_id == r.fr24_id then
        { x with payload := r.payload, cached_at := r.cached_at }
      else x)
  else rows ++ [r]

/-- Method `FlightCache.save`: `executemany` of the upsert over the serialized
flights, all stamped with the single `now` timestamp of the call. -/
def FlightCache.save (rows : List CacheRow) (flights : List FlightView)
    (now_iso : String) : List CacheRow :=
  flights.foldl
    (fun acc f => upsertRow acc ⟨f.fr24_id, serializeFlight f, now_iso⟩) rows

/-- One value of a pydantic `model_dump()` of `FlightFilterRequest`: an
optional number, an optional string, or a boolean. -/
inductive DumpVal where
  | q (v : Option ℚ)
  | s (v : Option String)
  | b (v : Bool)

/-- Pydantic model `FlightFilterRequest` of `app/main.py` (note the extra
field `arrival_city_or_airport`, which `FlightFilter` does not have). -/
structure FlightFilterRequest where
  min_duration_h : Option ℚ := none
  max_duration_h : Option ℚ := none
  departure_country : Option String := none
  departure_city_or_airport : Option String := none
  arrival_country : Option String := none
  arrival_city_or_airport : Option String := none
  arrival_airport : Option String := none
  aircraft_icao : Option String := none
  airline : Option String := none
  include_past : Bool := false

/-- Pydantic `model_dump()`: every declared field of the request, keyed by
field name. -/
def model_dump (r : FlightFilterRequest) : List (String × DumpVal) :=
  [("min_duration_h", .q r.min_duration_h),
   ("max_duration_h", .q r.max_duration_h),
   ("departure_country", .s r.departure_country),
   ("departure_city_or_airport", .s r.departure_city_or_airport),
   ("arrival_country", .s r.arrival_country),
   ("arrival_city_or_airport", .s r.arrival_city_or_airport),
   ("arrival_airport", .s r.arrival_airport),
   ("aircraft_icao", .s r.aircraft_icao),
   ("airline", .s r.airline),
   ("include_past", .b r.include_past)]

/-- The field names of the dataclass `FlightFilter`, the only keywords its
generated `__init__` accepts. -/
def flightFilterFieldNames : List String :=
  ["min_duration_h", "max_duration_h", "departure_country",
   "departure_city_or_airport", "arrival_country", "arrival_airport",
   "aircraft_icao", "airline", "include_past"]

/-- Look up an optional-rational keyword argument. -/
def getQ (kw : List (String × DumpVal)) (k : String) : Option ℚ :=
  match kw.find? (fun p => p.1 == k) with
  | some (_, .q v) => v
  | _ => Option.none

/-- Look up an optional-string keyword argument. -/
def getS (kw : List (String × DumpVal)) (k : String) : Option String :=
  match kw.find? (fun p => p.1 == k) with
  | some (_, .s v) => v
  | _ => Option.none

/-- Look up a boolean keyword argument (dataclass default `False`). -/
def getB (kw : List (String × DumpVal)) (k : String) : Bool :=
  match kw.find? (fun p => p.1 == k) with
  | some (_, .b v) => v
  | _ => false

/-- The dataclass call `FlightFilter(**kwargs)`: a `TypeError` as soon as
any keyword is not a declared field, else the constructed filter. -/
def FlightFilter.fromKwargs (kw : List (String × DumpVal)) :
    Except String FlightFilter :=
  if kw.all (fun p => flightFilterFieldNames.contains p.1) then
    Except.ok
      { min_duration_h := getQ kw "min_duration_h"
        max_duration_h := getQ kw "max_duration_h"
        departure_country := getS kw "departure_country"
        departure_city_or_airport := getS kw "departure_city_or_airport"
        arrival_country := getS kw "arrival_country"
        arrival_airport := getS kw "arrival_airport"
        aircraft_icao := getS kw "aircraft_icao"
        airline := getS kw "airline"
        include_past := getB kw "include_past" }
  else Except.error "TypeError: unexpected keyword argument"

/-- Method `FlightFilterRequest.to_domain`, that is `FlightFilter(**self.model_dump())`. -/
def FlightFilterRequest.to_domain (r : FlightFilterRequest) :
    Except String FlightFilter :=
  FlightFilter.fromKwargs (model_dump r)

/-- The request phase of the `/api/flights/search` handler: build the
domain filter via `to_domain()`, then run the two request-shape
validations, in source order. -/
def search_flights_validate (r : FlightFilterRequest) :
    Except String FlightFilter := do
  let filters ← r.to_domain
  if !filters.has_any_filter then
    Except.error "400: no filter field set"
  else if (match filters.min_duration_h, filters.max_duration_h with
      | some a, some b => decide (b < a)
      | _, _ => false) then
    Except.error "400: min duration exceeds max"
  else Except.ok filters

/-- A value that is not a dict collapses to the empty dict under
`_as_dict`. -/
lemma as_dict_eq_nil {v : PyVal} (h : v.isDictVal = false) : _as_dict v = [] := by
  cases v <;> simp_all [PyVal.isDictVal, _as_dict]

/-- Bridge from the executable floor to the order-theoretic one. -/
lemma ratFloor_eq (q : ℚ) : ratFloor q = ⌊q⌋ := by
  rw [Rat.floor_def, ratFloor]
  exact Int.fdiv_eq_ediv _ (Int.ofNat_nonneg _)

/-- Truncation toward zero of a rational at least 1 is strictly positive. -/
lemma pyTrunc_pos {q : ℚ} (h : 1 ≤ q) : 0 < pyTrunc q := by
  rw [pyTrunc, if_pos (le_trans zero_le_one h), ratFloor_eq]
  have h1 : (1 : Int) ≤ ⌊q⌋ := Int.le_floor.mpr (by exact_mod_cast h)
  omega

/-- The `mkRat` form of division agrees with field division. -/
lemma ratDivNat_eq (q : ℚ) (n : Nat) : ratDivNat q n = q / (n : ℚ) := by
  rw [ratDivNat, Rat.mkRat_eq_div]
  push_cast
  rw [← div_div, Rat.num_div_den]

/-- Floor division by 60 of a rational above 1000 is strictly positive. -/
lemma floor_div_sixty_pos {q : ℚ} (h : 1000 < q) :
    0 < ratFloor (ratDivNat q 60) := by
  rw [ratDivNat_eq q 60, ratFloor_eq]
  have h1 : (1 : ℚ) ≤ q / 60 := by
    rw [le_div_iff₀ (by norm_num : (0 : ℚ) < 60)]
    linarith
  have h2 : (1 : Int) ≤ ⌊q / (60 : Nat)⌋ :=
    Int.le_floor.mpr (by push_cast; exact_mod_cast h1)
  omega

/-- Every value produced by the `time.other` scan is strictly positive,
provided every strictly positive numeric value the scan can accept is at
least 1 (values in the open interval (0, 1) would truncate to zero). -/
lemma scanOtherKeys_pos (ks : List String) (other : List (String × PyVal)) :
    (∀ k ∈ ks, ∀ q : ℚ, pyNumVal (dictGet other k) = some q → 0 < q → 1 ≤ q) →
    ∀ v : Int, scanOtherKeys ks other = some v → 0 < v := by
  induction ks with
  | nil => intro _ v h; simp [scanOtherKeys] at h
  | cons k ks ih =>
    intro hother v h
    unfold scanOtherKeys at h
    split at h
    · rename_i q heq
      split at h
      · rename_i hq0
        obtain rfl := Option.some.inj h
        split
        · rename_i h1000
          exact floor_div_sixty_pos h1000
        · exact pyTrunc_pos (hother k (List.mem_cons_self k ks) q heq hq0)
      · exact ih (fun k2 hk2 => hother k2 (List.mem_cons_of_mem _ hk2)) v h
    · exact ih (fun k2 hk2 => hother k2 (List.mem_cons_of_mem _ hk2)) v h

/-- Claim C2, counterexample: the filter in which only `include_past` is set
has `has_any_filter() = False`, because the `any` list in the source omits
`include_past`; the claim as stated (any single field, including
`include_past`, makes it true) is false. -/
theorem has_any_filter_include_past_counterexample :
    FlightFilter.has_any_filter { include_past := true } = false := by decide

/-- Claim C2 (amended): `has_any_filter()` is false on the all-unset filter;
setting any one of the eight listed fields (a duration bound, or a nonempty
string field) makes it true; setting only `include_past` leaves it false. -/
theorem has_any_filter_single_field_amended (q : ℚ) (s : String) (hs : s ≠ "") :
    FlightFilter.has_any_filter {} = false
  ∧ FlightFilter.has_any_filter { min_duration_h := some q } = true
  ∧ FlightFilter.has_any_filter { max_duration_h := some q } = true
  ∧ FlightFilter.has_any_filter { departure_country := some s } = true
  ∧ FlightFilter.has_any_filter { departure_city_or_airport := some s } = true
  ∧ FlightFilter.has_any_filter { arrival_country := some s } = true
  ∧ FlightFilter.has_any_filter { arrival_airport := some s } = true
  ∧ FlightFilter.has_any_filter { aircraft_icao := some s } = true
  ∧ FlightFilter.has_any_filter { airline := some s } = true
  ∧ FlightFilter.has_any_filter { include_past := true } = false := by
  refine ⟨by decide, ?_, ?_, ?_, ?_, ?_, ?_, ?_, ?_, by decide⟩ <;>
    simp [FlightFilter.has_any_filter, optStrTruthy, hs]

/-- Claim C2, witness for the amended theorem at `q = 2`, `s = "x"`. -/
theorem has_any_filter_single_field_amended_witness :
    FlightFilter.has_any_filter { departure_country := some "x" } = true :=
  (has_any_filter_single_field_amended 2 "x" (by decide)).2.2.2.1

/-- Claim C4, counterexample: with the arrival airport-or-city filter set to
"anta", a record whose arrival city "Antalya" contains it but whose arrival
IATA/ICAO codes are absent is rejected by `_match_filters`, although the
claimed iff (IATA or ICAO or city) would accept it. -/
theorem arrival_filter_city_counterexample :
    _match_filters { fr24_id := "1", arrival_city := some "Antalya" }
      { arrival_airport := some "anta" } false = false
  ∧ _contains (some "Antalya") (some "anta") = true := by decide

/-- Claim C4 (amended): for every record and every value of the arrival
airport-or-city filter field (all other filter fields unset), the match
outcome equals the disjunction of the IATA-code and ICAO-code containment
tests alone — the arrival city is not consulted. -/
theorem arrival_filter_codes_only (flight : FlightView) (a : Option String) :
    _match_filters flight { arrival_airport := a } false
      = (_contains flight.arrival_airport a
         || _contains flight.arrival_airport_icao a) := by
  simp [_match_filters, minDurationFails, maxDurationFails, _norm_country,
    optStrTruthy, _contains]

/-- Claim C6: with only the airline filter field set, `_match_filters`
passes exactly when the filter string is contained (case-insensitively) in
the record airline string, callsign, or flight number; concretely, filter
"AFL" matches a record with callsign "AFL1200" whose airline name
"Aeroflot" does not contain "AFL". -/
theorem airline_filter_disjunction :
    (∀ (flight : FlightView) (al : Option String),
      _match_filters flight { airline := al } false
        = (_contains flight.airline al
           || _contains flight.callsign al
           || _contains flight.flight_number al))
  ∧ _match_filters
      { fr24_id := "3", flight_number := some "SU1200",
        callsign := some "AFL1200", airline := some "Aeroflot" }
      { airline := some "AFL" } false = true
  ∧ _contains (some "Aeroflot") (some "AFL") = false := by
  refine ⟨fun flight al => ?_, by decide, by decide⟩
  cases al with
  | none =>
    simp [_match_filters, minDurationFails, maxDurationFails, _norm_country,
      optStrTruthy, _contains]
  | some s =>
    by_cases hs : s = "" <;>
      simp [_match_filters, minDurationFails, maxDurationFails, _norm_country,
        optStrTruthy, _contains, hs]

/-- Claim C7: an active minimum duration bound fails the match whenever the
record duration is absent or strictly below `min_duration_h * 60`; the
active maximum bound fails whenever the duration is absent or strictly
above `max_duration_h * 60`; and a record with duration 180 minutes passes
the filter `min = 2h`, `max = 4h`. -/
theorem duration_bounds_match (fl : FlightView) (fi : FlightFilter) :
    (∀ m : ℚ, fi.min_duration_h = some m →
      (fl.scheduled_duration_min = none ∨
        ∃ d : Int, fl.scheduled_duration_min = some d ∧ (d : ℚ) < m * 60) →
      _match_filters fl fi false = false)
  ∧ (∀ M : ℚ, fi.max_duration_h = some M →
      (fl.scheduled_duration_min = none ∨
        ∃ d : Int, fl.scheduled_duration_min = some d ∧ (d : ℚ) > M * 60) →
      _match_filters fl fi false = false)
  ∧ (fl.scheduled_duration_min = some 180 →
      _match_filters fl { min_duration_h := some 2, max_duration_h := some 4 }
        false = true) := by
  refine ⟨?_, ?_, ?_⟩
  · rintro m hm hcase
    rcases hcase with hd | ⟨d, hd, hlt⟩
    · simp [_match_filters, minDurationFails, hm, hd]
    · simp [_match_filters, minDurationFails, hm, hd, hlt]
  · rintro M hM hcase
    rcases hcase with hd | ⟨d, hd, hgt⟩
    · simp [_match_filters, maxDurationFails, hM, hd]
    · simp [_match_filters, maxDurationFails, hM, hd, hgt]
  · intro h180
    simp [_match_filters, minDurationFails, maxDurationFails, h180,
      _norm_country, optStrTruthy, _contains]
    norm_num

/-- Claim C7, witness: a record with absent duration fails an active
minimum bound, and a record with duration 180 passes `min = 2h, max = 4h`. -/
theorem duration_bounds_match_witness :
    _match_filters { fr24_id := "a" } { min_duration_h := some 1 } false = false
  ∧ _match_filters { fr24_id := "b", scheduled_duration_min := some 180 }
      { min_duration_h := some 2, max_duration_h := some 4 } false = true :=
  ⟨(duration_bounds_match { fr24_id := "a" } { min_duration_h := some 1 }).1
      1 rfl (Or.inl rfl),
   (duration_bounds_match { fr24_id := "b", scheduled_duration_min := some 180 }
      {}).2.2 rfl⟩

/-- Claim C8: country normalization lowercases, trims, and applies the fixed
Russian-to-English alias table, with unrecognized values passing through
lowercased/trimmed unchanged; containment is applied after normalizing both
sides, so the country filter "россия" matches every record whose departure
country field is "Russia". -/
theorem country_alias_match (s : String) (fl : FlightView)
    (hs : pyStrip (pyStrLower s) ∉ COUNTRY_ALIASES.map Prod.fst) (hne : s ≠ "") :
    _norm_country (some s) = some (pyStrip (pyStrLower s))
  ∧ _norm_country (some "россия") = some "russia"
  ∧ (fl.departure_country = some "Russia" →
      _match_filters fl { departure_country := some "россия" } false = true) := by
  refine ⟨?_, by decide, ?_⟩
  · have hfind : COUNTRY_ALIASES.find?
        (fun p => p.1 == pyStrip (pyStrLower s)) = none := by
      rw [List.find?_eq_none]
      intro p hp
      simp only [beq_iff_eq]
      intro hEq
      exact hs (hEq ▸ List.mem_map_of_mem Prod.fst hp)
    simp [_norm_country, hne, aliasGet, hfind]
  · intro h
    simp [_match_filters, minDurationFails, maxDurationFails, h,
      _norm_country, optStrTruthy, _contains, aliasGet]
    decide

/-- Claim C8, witness at `s = "Turkey"` (not an alias-table key) and a
record whose departure country is "Russia". -/
theorem country_alias_match_witness :
    _norm_country (some "Turkey") = some (pyStrip (pyStrLower "Turkey"))
  ∧ _norm_country (some "россия") = some "russia"
  ∧ _match_filters { fr24_id := "2", departure_country := some "Russia" }
      { departure_country := some "россия" } false = true := by
  have h := country_alias_match "Turkey"
    { fr24_id := "2", departure_country := some "Russia" }
    (by decide) (by decide)
  exact ⟨h.1, h.2.1, h.2.2 rfl⟩

/-- Claim C9: with no timestamp-based duration available, a raw
`"duration"` of 7200 (above 1000, treated as seconds) yields 120 minutes
and a raw `"duration"` of 45 (treated as minutes) yields 45 minutes. -/
theorem duration_heuristic_examples :
    _extract_duration_min [("duration", PyVal.int 7200)] PyVal.none = some 120
  ∧ _extract_duration_min [("duration", PyVal.int 45)] PyVal.none = some 45 := by
  exact ⟨rfl, rfl⟩

/-- Claim C3, counterexample: the raw `"duration"` fallback path and the
`time.other` scan truncate with `int()` and have no sufficient positivity
guard, so a raw duration of 0 is extracted as 0 minutes, -120 as -120
minutes, the float 1/2 (Python 0.5, strictly positive) as `int(0.5) = 0`,
the bool `False` (accepted by `isinstance(..., int)`) as 0, and a
`time.other.eta` of 0.5 passes the `value > 0` guard and is extracted as
0 — non-`None` values that are not strictly positive, refuting the claim
as stated. -/
theorem duration_raw_field_counterexample :
    _extract_duration_min [("duration", PyVal.int 0)] PyVal.none = some 0
  ∧ _extract_duration_min [("duration", PyVal.int (-120))] PyVal.none
      = some (-120)
  ∧ _extract_duration_min [("duration", PyVal.float (mkRat 1 2))] PyVal.none
      = some 0
  ∧ _extract_duration_min [("duration", PyVal.bool false)] PyVal.none
      = some 0
  ∧ _extract_duration_min []
      (PyVal.dict [("time", PyVal.dict [("other",
        PyVal.dict [("eta", PyVal.float (mkRat 1 2))])])]) = some 0 := by
  refine ⟨?_, ?_, ?_, ?_, ?_⟩ <;> decide

/-- Claim C3 (amended): every extracted duration is strictly positive on
the two timestamp-difference paths; the raw `"duration"` path and the
`time.other` scan apply `int()` truncation without a sufficient positivity
guard (numbers in the open interval (0, 1) truncate to 0, `False` counts
as the number 0, and negative raw durations pass through), so the
extracted value is strictly positive provided every numeric raw
`"duration"` value and every strictly positive numeric value consulted by
the `time.other` scan is at least 1 — in particular for all integer feed
data with positive raw durations. -/
theorem extract_duration_min_positive_amended (data : List (String × PyVal))
    (details : PyVal)
    (hdur : ∀ q : ℚ, pyNumVal (dictGet data "duration") = some q → 1 ≤ q)
    (hother : ∀ k ∈ (["eta", "duration", "delay"] : List String), ∀ q : ℚ,
      pyNumVal (dictGet (_as_dict (dictGet (_as_dict (dictGet
        (_as_dict details) "time")) "other")) k) = some q → 0 < q → 1 ≤ q) :
    ∀ v : Int, _extract_duration_min data details = some v → 0 < v := by
  intro v hv
  simp only [_extract_duration_min] at hv
  split at hv
  · split at hv
    · rename_i hpos
      obtain rfl := Option.some.inj hv
      exact hpos
    · exact absurd hv (by simp)
  · split at hv
    · split at hv
      · rename_i hpos
        obtain rfl := Option.some.inj hv
        exact hpos
      · exact absurd hv (by simp)
    · split at hv
      · rename_i q heq
        have hq := hdur q heq
        obtain rfl := Option.some.inj hv
        split
        · rename_i h1000
          exact floor_div_sixty_pos h1000
        · exact pyTrunc_pos hq
      · exact scanOtherKeys_pos _ _ hother v hv

/-- Claim C3, witness: a record carrying the integer raw duration 7200
(at least 1) with no detail record extracts the duration 120, which is
strictly positive. -/
theorem extract_duration_min_positive_amended_witness :
    _extract_duration_min [("duration", PyVal.int 7200)] PyVal.none = some 120
  ∧ (0 : Int) < 120 :=
  ⟨by decide, extract_duration_min_positive_amended
    [("duration", PyVal.int 7200)] PyVal.none
    (by intro q h; simp [dictGet, pyNumVal] at h; subst h; norm_num)
    (by intro k hk q h; simp [dictGet, _as_dict, pyNumVal] at h) 120 (by decide)⟩

/-- Claim C1: `model_dump()` contains the key `arrival_city_or_airport`,
which is not a field of the `FlightFilter` dataclass, so
`FlightFilter(**self.model_dump())` raises `TypeError` for every request —
before the `has_any_filter` / duration-order validations run. -/
theorem to_domain_always_typeerror (r : FlightFilterRequest) :
    r.to_domain = Except.error "TypeError: unexpected keyword argument"
  ∧ search_flights_validate r
      = Except.error "TypeError: unexpected keyword argument" :=
  ⟨rfl, rfl⟩

/-- Replacing the payload/timestamp of matching rows never changes the key
column, so the map branch of the upsert preserves the key list. -/
lemma upsert_map_keys (rows : List CacheRow) (r : CacheRow) :
    (rows.map (fun x =>
      if x.fr24_id == r.fr24_id then
        { x with payload := r.payload, cached_at := r.cached_at }
      else x)).map CacheRow.fr24_id = rows.map CacheRow.fr24_id := by
  rw [List.map_map]
  apply List.map_congr_left
  intro x _
  cases hx : x.fr24_id == r.fr24_id <;> simp [Function.comp, hx]

/-- The upsert preserves distinctness of the primary-key column. -/
lemma upsertRow_nodup (rows : List CacheRow) (r : CacheRow)
    (h : (rows.map CacheRow.fr24_id).Nodup) :
    ((upsertRow rows r).map CacheRow.fr24_id).Nodup := by
  unfold upsertRow
  split
  · rw [upsert_map_keys]
    exact h
  · rename_i hany
    rw [List.map_append]
    refine List.Nodup.append h (List.nodup_singleton _) ?_
    intro a ha hb
    obtain ⟨x, hx, rfl⟩ := List.mem_map.mp ha
    simp only [List.map_cons, List.map_nil, List.mem_singleton] at hb
    exact hany (List.any_eq_true.mpr ⟨x, hx, by simp [hb]⟩)

/-- In the map branch of the upsert (key already present, keys distinct),
the rows with the upserted key collapse to exactly the new row. -/
lemma upsert_filter_replace (r : CacheRow) :
    ∀ rows : List CacheRow, (rows.map CacheRow.fr24_id).Nodup →
    rows.any (fun x => x.fr24_id == r.fr24_id) = true →
    (rows.map (fun x =>
        if x.fr24_id == r.fr24_id then
          { x with payload := r.payload, cached_at := r.cached_at }
        else x)).filter (fun x => x.fr24_id == r.fr24_id) = [r] := by
  intro rows
  induction rows with
  | nil => intro _ hany; simp at hany
  | cons x xs ih =>
    intro hnd hany
    rw [List.map_cons, List.nodup_cons] at hnd
    obtain ⟨hxnot, hxs⟩ := hnd
    cases hx : x.fr24_id == r.fr24_id with
    | true =>
      have hxid : x.fr24_id = r.fr24_id := eq_of_beq hx
      have htail : (xs.map (fun y =>
          if y.fr24_id == r.fr24_id then
            { y with payload := r.payload, cached_at := r.cached_at }
          else y)).filter (fun y => y.fr24_id == r.fr24_id) = [] := by
        rw [List.filter_eq_nil_iff]
        intro y hy
        obtain ⟨z, hz, rfl⟩ := List.mem_map.mp hy
        cases hz2 : z.fr24_id == r.fr24_id with
        | true =>
          exact absurd (hxid ▸ eq_of_beq hz2 ▸ List.mem_map_of_mem CacheRow.fr24_id hz)
            hxnot
        | false => simp [hz2]
      simp only [List.map_cons, List.filter_cons, hx, if_true]
      simp only [hxid, beq_self_eq_true, if_true] at htail ⊢
      rw [htail]
    | false =>
      have hany2 : xs.any (fun y => y.fr24_id == r.fr24_id) = true := by
        simpa [hx] using hany
      simp only [List.map_cons, List.filter_cons, hx]
      simpa [hx] using ih hxs hany2

/-- In the append branch of the upsert (key absent), the rows with the
upserted key are exactly the appended row. -/
lemma upsert_filter_append (r : CacheRow) (rows : List CacheRow)
    (hany : rows.any (fun x => x.fr24_id == r.fr24_id) = false) :
    (rows ++ [r]).filter (fun x => x.fr24_id == r.fr24_id) = [r] := by
  rw [List.filter_append]
  have h1 : rows.filter (fun x => x.fr24_id == r.fr24_id) = [] := by
    rw [List.filter_eq_nil_iff]
    intro a ha
    have := List.any_eq_false.mp hany a ha
    simpa using this
  simp [h1]

/-- After an upsert on a table with distinct keys, the rows carrying the
upserted key are exactly the new row. -/
lemma upsertRow_filter (rows : List CacheRow) (r : CacheRow)
    (h : (rows.map CacheRow.fr24_id).Nodup) :
    (upsertRow rows r).filter (fun x => x.fr24_id == r.fr24_id) = [r] := by
  unfold upsertRow
  split
  · rename_i hany
    exact upsert_filter_replace r rows h hany
  · rename_i hany
    exact upsert_filter_append r rows (by simpa using hany)

/-- Claim C10: saving a record and then saving a second record with the
same identifier but a different payload leaves exactly one cached row for
that identifier, holding the second payload and the
timestamp (sqlite upsert, last write wins). -/
theorem cache_upsert_last_write_wins (s : List CacheRow) (f1 f2 : FlightView)
    (t1 t2 : String) (hnd : (s.map CacheRow.fr24_id).Nodup)
    (_hid : f1.fr24_id = f2.fr24_id)
    (_hpay : serializeFlight f1 ≠ serializeFlight f2) :
    (FlightCache.save (FlightCache.save s [f1] t1) [f2] t2).filter
        (fun row => row.fr24_id == f2.fr24_id)
      = [⟨f2.fr24_id, serializeFlight f2, t2⟩] := by
  have h1 : FlightCache.save s [f1] t1
      = upsertRow s ⟨f1.fr24_id, serializeFlight f1, t1⟩ := rfl
  rw [h1]
  exact upsertRow_filter _ ⟨f2.fr24_id, serializeFlight f2, t2⟩
    (upsertRow_nodup s _ hnd)

set_option maxRecDepth 8192 in
/-- Claim C10, witness: two concrete saves of identifier "x1" with
different payloads, starting from the empty table. -/
theorem cache_upsert_last_write_wins_witness :
    (FlightCache.save
        (FlightCache.save [] [{ fr24_id := "x1", is_past := true }] "t1")
        [{ fr24_id := "x1" }] "t2").filter (fun row => row.fr24_id == "x1")
      = [⟨"x1", serializeFlight { fr24_id := "x1" }, "t2"⟩] :=
  cache_upsert_last_write_wins [] { fr24_id := "x1", is_past := true }
    { fr24_id := "x1" } "t1" "t2" (by simp) rfl (by decide)

/-- Claim C5: normalizing a flat raw record (identifier, callsign, airline
name, aircraft code) together with a detail record whose nested sub-objects
(`airport.origin`, `airport.destination`, `status`, `airline`,
`identification`, `aircraft`, `time`) are all null, missing, or of
non-dict type yields exactly the canonical record whose detail-derived
fields (cities, countries, airports, duration, past flag) are absent and
whose flat raw fields are preserved — `_to_view` is total, so no execution
path raises. -/
theorem to_view_malformed_details_safe
    (i cs an ac : String) (details : PyVal)
    (hi : pyStrip i ≠ "") (hcs : pyStrip cs ≠ "")
    (han : pyStrip an ≠ "") (hac : pyStrip ac ≠ "")
    (hO : (dictGet (_as_dict (dictGet (_as_dict details) "airport"))
        "origin").isDictVal = false)
    (hD : (dictGet (_as_dict (dictGet (_as_dict details) "airport"))
        "destination").isDictVal = false)
    (hS : (dictGet (_as_dict details) "status").isDictVal = false)
    (hL : (dictGet (_as_dict details) "airline").isDictVal = false)
    (hI : (dictGet (_as_dict details) "identification").isDictVal = false)
    (hA : (dictGet (_as_dict details) "aircraft").isDictVal = false)
    (hT : (dictGet (_as_dict details) "time").isDictVal = false) :
    _to_view (PyVal.dict [("id", PyVal.str i), ("callsign", PyVal.str cs),
        ("airline_name", PyVal.str an), ("aircraft_code", PyVal.str ac)])
      details
      = { fr24_id := pyStrip i,
          callsign := some (pyStrip cs),
          airline := some (pyStrip an),
          aircraft_icao := some (pyStrip ac) } := by
  have hO' := as_dict_eq_nil hO
  have hD' := as_dict_eq_nil hD
  have hS' := as_dict_eq_nil hS
  have hL' := as_dict_eq_nil hL
  have hI' := as_dict_eq_nil hI
  have hA' := as_dict_eq_nil hA
  have hT' := as_dict_eq_nil hT
  have hi0 : i ≠ "" := fun h => hi (by rw [h]; rfl)
  have hcs0 : cs ≠ "" := fun h => hcs (by rw [h]; rfl)
  have han0 : an ≠ "" := fun h => han (by rw [h]; rfl)
  have hac0 : ac ≠ "" := fun h => hac (by rw [h]; rfl)
  have hdurNone : _extract_duration_min
      [("id", PyVal.str i), ("callsign", PyVal.str cs),
       ("airline_name", PyVal.str an), ("aircraft_code", PyVal.str ac)]
      details = Option.none := by
    simp only [_extract_duration_min]
    rw [hT']
    rfl
  simp only [_to_view]
  rw [hO', hD', hS', hL', hI', hA', hdurNone]
  simp [dictGet, _as_dict, _safe_str, pyStr, pyOr, PyVal.truthy,
    hi0, hcs0, han0, hac0, hi, hcs, han, hac]
  refine ⟨?_, by decide, by decide⟩
  have hint : " ".intercalate [an] = an := rfl
  rw [hint]
  simp [han0, han]

/-- Claim C5, witness: the concrete raw record of the test in the repository
(`id = "f1"`, callsign, airline name, aircraft code) with a detail record
whose `airport.origin`, `airport.destination` and `status` sub-objects are
null and whose other sub-objects are missing. -/
theorem to_view_malformed_details_safe_witness :
    _to_view (PyVal.dict [("id", PyVal.str "f1"),
        ("callsign", PyVal.str "AFL123"),
        ("airline_name", PyVal.str "Aeroflot"),
        ("aircraft_code", PyVal.str "B738")])
      (PyVal.dict [("airport", PyVal.dict [("origin", PyVal.none),
          ("destination", PyVal.none)]), ("status", PyVal.none)])
      = { fr24_id := pyStrip "f1",
          callsign := some (pyStrip "AFL123"),
          airline := some (pyStrip "Aeroflot"),
          aircraft_icao := some (pyStrip "B738") } :=
  to_view_malformed_details_safe "f1" "AFL123" "Aeroflot" "B738"
    (PyVal.dict [("airport", PyVal.dict [("origin", PyVal.none),
        ("destination", PyVal.none)]), ("status", PyVal.none)])
    (by decide) (by decide) (by decide) (by decide)
    rfl rfl rfl rfl rfl rfl rfl
